import Mathlib

/-!
Shallow embedding of the device/surface negotiation logic of the Vulkan
raytracing application (`src/application.cpp`, `include/application.h`),
together with theorems checking the specification's claims about it.

Vulkan handles, driver queries and GLFW calls are modelled by passing the
queried data explicitly: a physical device is the data the code reads off it
(queue family properties, device extensions, surface formats, present modes),
the surface is implicit (all per-surface data is per-device data here), and
machine integers are `Nat` with an explicit wrap at `2 ^ 32` where the C++
`uint32_t` arithmetic can overflow.
-/

namespace VulkanRT

/-- `std::numeric_limits<uint32_t>::max()`. -/
def UINT32_MAX : Nat := 4294967295

/-- One entry of `vkGetPhysicalDeviceQueueFamilyProperties` together with the
result of `vkGetPhysicalDeviceSurfaceSupportKHR` for that family index:
`graphics` is whether `queueFlags & VK_QUEUE_GRAPHICS_BIT` is set, `present`
is the `presentSupport` boolean for the application's surface. -/
structure QueueFamilyProps where
  graphics : Bool
  present : Bool
deriving DecidableEq, Repr

/-- `RayTracingApplication::QueueFamilyIndicies` (spelling as in the source):
an optional graphics queue family index and an optional present queue family
index. -/
structure QueueFamilyIndicies where
  graphicsFamily : Option Nat
  presentFamily : Option Nat
deriving DecidableEq, Repr

/-- `QueueFamilyIndicies::isComplete`: both optionals hold a value. -/
def QueueFamilyIndicies.isComplete (q : QueueFamilyIndicies) : Bool :=
  q.graphicsFamily.isSome && q.presentFamily.isSome

/-- The loop of `RayTracingApplication::findQueueFamilies`: `i` is the loop
counter, the accumulator is the `indicies` local being filled in.  Each
iteration assigns `graphicsFamily := i` when the family advertises graphics,
assigns `presentFamily := i` when the family can present, then breaks once
`isComplete()`. -/
def findQueueFamiliesAux : List QueueFamilyProps → Nat → QueueFamilyIndicies → QueueFamilyIndicies
  | [], _, indicies => indicies
  | prop :: rest, i, indicies =>
    let ind1 : QueueFamilyIndicies :=
      if prop.graphics then { indicies with graphicsFamily := some i } else indicies
    let ind2 : QueueFamilyIndicies :=
      if prop.present then { ind1 with presentFamily := some i } else ind1
    if ind2.isComplete then ind2 else findQueueFamiliesAux rest (i + 1) ind2

/-- `RayTracingApplication::findQueueFamilies`, as a function of the queue
family data queried from the device. -/
def findQueueFamilies (families : List QueueFamilyProps) : QueueFamilyIndicies :=
  findQueueFamiliesAux families 0 ⟨none, none⟩

/-- `VkExtent2D`. -/
structure Extent2D where
  width : Nat
  height : Nat
deriving DecidableEq, Repr

/-- The fields of `VkSurfaceCapabilitiesKHR` that the code reads. -/
structure SurfaceCapabilitiesKHR where
  minImageCount : Nat
  maxImageCount : Nat
  currentExtent : Extent2D
  minImageExtent : Extent2D
  maxImageExtent : Extent2D
deriving DecidableEq, Repr

/-- `std::clamp(v, lo, hi)`: `lo` if `v < lo`, `hi` if `hi < v`, else `v`. -/
def stdClamp (v lo hi : Nat) : Nat :=
  if v < lo then lo else if hi < v then hi else v

/-- `RayTracingApplication::chooseSwapExtent`.  The `glfwGetFramebufferSize`
result is passed in as `fbWidth`/`fbHeight` (framebuffer sizes are
non-negative, so the `int → uint32_t` cast is the identity). -/
def chooseSwapExtent (capabilities : SurfaceCapabilitiesKHR)
    (fbWidth fbHeight : Nat) : Extent2D :=
  if capabilities.currentExtent.width ≠ UINT32_MAX then
    capabilities.currentExtent
  else
    { width := stdClamp fbWidth capabilities.minImageExtent.width
        capabilities.maxImageExtent.width,
      height := stdClamp fbHeight capabilities.minImageExtent.height
        capabilities.maxImageExtent.height }

/-- Numeric value of `VK_FORMAT_B8G8R8A8_SRGB`. -/
def VK_FORMAT_B8G8R8A8_SRGB : Nat := 50

/-- Numeric value of `VK_COLOR_SPACE_SRGB_NONLINEAR_KHR`. -/
def VK_COLOR_SPACE_SRGB_NONLINEAR_KHR : Nat := 0

/-- `VkSurfaceFormatKHR`: a (pixel format, color space) pair, with the two
enumerations embedded by their numeric values. -/
structure SurfaceFormatKHR where
  format : Nat
  colorSpace : Nat
deriving DecidableEq, Repr

/-- The (BGRA-8, SRGB-nonlinear) pair the format-selection loop looks for. -/
def preferredFormat : SurfaceFormatKHR :=
  ⟨VK_FORMAT_B8G8R8A8_SRGB, VK_COLOR_SPACE_SRGB_NONLINEAR_KHR⟩

/-- `RayTracingApplication::chooseSwapChainFormat`.  The source loop returns
the first offered format matching the preferred pair; its fallback
`return formats[0];` indexes the vector unguarded, which is surfaced here as
`formats[0]?` (`none` exactly when the fallback indexing is out of bounds). -/
def chooseSwapChainFormat (formats : List SurfaceFormatKHR) : Option SurfaceFormatKHR :=
  match formats.find? (fun format =>
      format.format == VK_FORMAT_B8G8R8A8_SRGB &&
      format.colorSpace == VK_COLOR_SPACE_SRGB_NONLINEAR_KHR) with
  | some format => some format
  | none => formats[0]?

/-- `RayTracingApplication::checkDeviceExtensionSupport`, as a function of the
required names (the `deviceExtensions` member) and the enumerated available
device extensions.  The source builds `std::set<std::string>` from the
required names (`dedup` models the set's uniqueness), erases every available
name from it, and reports whether the set ended up empty. -/
def checkDeviceExtensionSupport (deviceExtensions availableExtensions : List String) : Bool :=
  (availableExtensions.foldl (fun req ext => req.erase ext) deviceExtensions.dedup).isEmpty

/-- The `deviceExtensions` member of `RayTracingApplication`:
`VK_KHR_SWAPCHAIN_EXTENSION_NAME`. -/
def deviceExtensions : List String := ["VK_KHR_swapchain"]

/-- Everything the suitability check reads off a physical device (all of it
relative to the application's single surface): queue family data, enumerated
device extensions, and the surface format / present mode lists from
`querySwapChainSupport`. -/
structure PhysicalDevice where
  queueFamilies : List QueueFamilyProps
  availableExtensions : List String
  formats : List SurfaceFormatKHR
  presentModes : List Nat
deriving Repr

/-- `RayTracingApplication::isDeviceSuitable`, with the required extension
names passed explicitly.  `swapAdequate` starts out `false` and is only
computed when the device extension check succeeds. -/
def isDeviceSuitable (required : List String) (dev : PhysicalDevice) : Bool :=
  let indices := findQueueFamilies dev.queueFamilies
  let swapAdequate :=
    if checkDeviceExtensionSupport required dev.availableExtensions then
      !dev.formats.isEmpty && !dev.presentModes.isEmpty
    else false
  indices.isComplete && swapAdequate

/-- The image-count computation at the top of
`RayTracingApplication::createSwapChain`:
`uint32_t imageCount = minImageCount + 1` (`uint32_t` addition, hence the wrap
at `2 ^ 32`), clamped down to `maxImageCount` when that is nonzero and
exceeded. -/
def chosenImageCount (minImageCount maxImageCount : Nat) : Nat :=
  let imageCount := (minImageCount + 1) % 2 ^ 32
  if maxImageCount > 0 ∧ imageCount > maxImageCount then maxImageCount
  else imageCount

/-- `VkSharingMode` (the two values the code uses). -/
inductive VkSharingMode where
  | exclusive
  | concurrent
deriving DecidableEq, Repr

/-- The sharing-mode decision in `RayTracingApplication::createSwapChain`:
given the resolved (`.value()`-extracted) graphics and present family
indices, the chosen `imageSharingMode` together with the queue family index
list handed to `VkSwapchainCreateInfoKHR` (`pQueueFamilyIndices` limited to
`queueFamilyIndexCount` entries). -/
def swapChainSharingMode (graphicsFamily presentFamily : Nat) :
    VkSharingMode × List Nat :=
  if graphicsFamily ≠ presentFamily then
    (VkSharingMode.concurrent, [graphicsFamily, presentFamily])
  else
    (VkSharingMode.exclusive, [])

/-- The data `createLogicalDevice` would pass to `vkCreateDevice`: one queue
create info per unique queue family (in the iteration order of
`std::set<uint32_t>`, i.e. ascending), and the enabled extension names. -/
structure DeviceCreateInfo where
  queueCreateFamilies : List Nat
  enabledExtensions : List String
deriving DecidableEq, Repr

/-- `RayTracingApplication::createLogicalDevice`, as a function of the queue
family indices it resolves and the enumerated device extensions.  The very
first statements call `indices.graphicsFamily.value()` and
`indices.presentFamily.value()`; on an empty optional, `std::optional::value`
throws `std::bad_optional_access`, so with incomplete indices the function
raises before building any create info.  On the success path,
`std::set<uint32_t>{g, p}` iterates in ascending order, and the loop over the
available extensions pushes `"VK_KHR_portability_subset"` once per matching
entry. -/
def createLogicalDevice (indices : QueueFamilyIndicies)
    (availableExtensions : List String) (required : List String) :
    Except String DeviceCreateInfo :=
  match indices.graphicsFamily, indices.presentFamily with
  | some g, some p =>
    let uniqueQueueFamilies : List Nat :=
      if g = p then [g] else if g < p then [g, p] else [p, g]
    let enabledExtensions : List String :=
      availableExtensions.foldl
        (fun acc ext =>
          if ext == "VK_KHR_portability_subset" then
            acc ++ ["VK_KHR_portability_subset"]
          else acc)
        required
    Except.ok ⟨uniqueQueueFamilies, enabledExtensions⟩
  | _, _ => Except.error "bad_optional_access"

/-- The resources released by `RayTracingApplication::cleanup`. -/
inductive Resource where
  | imageView (index : Nat)
  | swapChain
  | device
  | debugMessenger
  | surface
  | inst
  | window
deriving DecidableEq, Repr

/-- The release trace of `RayTracingApplication::cleanup`: each destroyed
resource in call order.  `enableValidationLayers` is the compile-time flag;
`destroyFuncFound` is whether `vkGetInstanceProcAddr` found
`vkDestroyDebugUtilsMessengerEXT`; `numImageViews` is
`swapChainImageViews.size()`. -/
def cleanup (enableValidationLayers destroyFuncFound : Bool)
    (numImageViews : Nat) : List Resource :=
  ((List.range numImageViews).map Resource.imageView) ++
  [Resource.swapChain, Resource.device] ++
  (if enableValidationLayers then
    (if destroyFuncFound then [Resource.debugMessenger] else [])
   else []) ++
  [Resource.surface, Resource.inst, Resource.window]

/-- `a` is released strictly before `b` in the trace `tr`: both occur, and
every position holding `a` precedes every position holding `b`. -/
def releasedStrictlyBefore (tr : List Resource) (a b : Resource) : Prop :=
  a ∈ tr ∧ b ∈ tr ∧ ∀ i j : Nat, tr[i]? = some a → tr[j]? = some b → i < j

/-- Normal form of the `cleanup` trace: the image views, then the swap chain
and device, then a (possibly empty) debug-messenger segment `m`, then
surface, instance and window. -/
def cleanupShape (n : Nat) (m : List Resource) : List Resource :=
  (List.range n).map Resource.imageView ++
    (Resource.swapChain :: Resource.device ::
      (m ++ [Resource.surface, Resource.inst, Resource.window]))

/-- Index of the last element of the list satisfying `p`, if any.  Used to
state what `findQueueFamilies` actually returns (later assignments overwrite
earlier ones). -/
def lastIdxWhere (p : QueueFamilyProps → Bool) : List QueueFamilyProps → Option Nat
  | [] => none
  | f :: rest =>
    match lastIdxWhere p rest with
    | some j => some (j + 1)
    | none => if p f then some 0 else none

/-- Length of the prefix of the family list that the `findQueueFamilies` loop
actually visits, starting from the knowledge `g`/`p` of whether a graphics /
present family has already been seen: the scan stops right after the first
family at which both capabilities have been seen, and otherwise runs to the
end of the list. -/
def scanLenAux (g p : Bool) : List QueueFamilyProps → Nat
  | [] => 0
  | f :: rest =>
    if (g || f.graphics) && (p || f.present) then 1
    else 1 + scanLenAux (g || f.graphics) (p || f.present) rest

/-- Length of the scanned prefix of a full `findQueueFamilies` run. -/
def scannedLen (families : List QueueFamilyProps) : Nat :=
  scanLenAux false false families

/-- Overwriting update of an optional index: a new assignment wins, otherwise
the old value is kept. -/
def updOpt (old new : Option Nat) : Option Nat :=
  match new with
  | some v => some v
  | none => old

/-- One cons-step of `lastIdxWhere`: shift a tail result by one, or use the
head (at index `0`) when the tail has no match and the head satisfies the
predicate (`b` is the predicate's value at the head). -/
def shiftIdx (b : Bool) (X : Option Nat) : Option Nat :=
  match X with
  | some j => some (j + 1)
  | none => if b then some 0 else none

/-- The queue family indices as the spec's corrected words describe them:
restrict the family list to the scanned prefix, and take for each capability
the index of the last family in that prefix advertising it. -/
def specQueueFamilies (families : List QueueFamilyProps) : QueueFamilyIndicies :=
  let scanned := families.take (scannedLen families)
  ⟨lastIdxWhere (fun f => f.graphics) scanned,
   lastIdxWhere (fun f => f.present) scanned⟩

/-! ## Helper lemmas -/

lemma stdClamp_eq_max_min (v lo hi : Nat) (h : lo ≤ hi) :
    stdClamp v lo hi = max lo (min v hi) := by
  unfold stdClamp
  rw [max_def', min_def']
  split_ifs <;> omega

lemma foldl_erase_eq_filter (S : List String) :
    ∀ d : List String, d.Nodup →
      S.foldl (fun req ext => req.erase ext) d =
        d.filter (fun r => decide (r ∉ S)) := by
  induction S with
  | nil =>
    intro d _
    simp
  | cons s S ih =>
    intro d hd
    rw [List.foldl_cons, ih (d.erase s) (hd.erase s), hd.erase_eq_filter s,
      List.filter_filter]
    refine List.filter_congr ?_
    intro x _
    by_cases hx1 : x = s <;> by_cases hx2 : x ∈ S <;> simp [hx1, hx2]

lemma checkDeviceExtensionSupport_iff (R S : List String) :
    checkDeviceExtensionSupport R S = true ↔ ∀ r ∈ R, r ∈ S := by
  unfold checkDeviceExtensionSupport
  rw [foldl_erase_eq_filter S R.dedup (List.nodup_dedup R)]
  rw [List.isEmpty_iff, List.filter_eq_nil_iff]
  constructor
  · intro h r hr
    have := h r (List.mem_dedup.mpr hr)
    simpa using this
  · intro h r hr
    simpa using h r (List.mem_dedup.mp hr)

lemma isDeviceSuitable_iff (required : List String) (dev : PhysicalDevice) :
    isDeviceSuitable required dev = true ↔
      ((findQueueFamilies dev.queueFamilies).isComplete = true ∧
       (∀ e ∈ required, e ∈ dev.availableExtensions) ∧
       dev.formats ≠ [] ∧ dev.presentModes ≠ []) := by
  unfold isDeviceSuitable
  cases hext : checkDeviceExtensionSupport required dev.availableExtensions with
  | false =>
    have : ¬ ∀ e ∈ required, e ∈ dev.availableExtensions := by
      intro hall
      rw [(checkDeviceExtensionSupport_iff required dev.availableExtensions).mpr hall] at hext
      cases hext
    simp [this]
  | true =>
    have hall := (checkDeviceExtensionSupport_iff required dev.availableExtensions).mp hext
    simp [hall, List.isEmpty_iff, and_assoc]
    exact fun _ _ _ => hall

lemma releasedStrictlyBefore_of_split (tr A B : List Resource) (a b : Resource)
    (htr : tr = A ++ B) (haA : a ∈ A) (hbB : b ∈ B) (haB : a ∉ B) (hbA : b ∉ A) :
    releasedStrictlyBefore tr a b := by
  subst htr
  refine ⟨List.mem_append.mpr (Or.inl haA), List.mem_append.mpr (Or.inr hbB), ?_⟩
  intro i j hi hj
  have hiA : i < A.length := by
    by_contra hge
    push_neg at hge
    rw [List.getElem?_append_right hge] at hi
    exact haB (List.getElem?_mem hi)
  by_contra hij
  push_neg at hij
  have hjA : j < A.length := lt_of_le_of_lt hij hiA
  rw [List.getElem?_append_left hjA] at hj
  exact hbA (List.getElem?_mem hj)

lemma cleanupShape_order (n : Nat) (m : List Resource)
    (hm : m = [] ∨ m = [Resource.debugMessenger]) :
    (∀ k, k < n → releasedStrictlyBefore (cleanupShape n m)
      (Resource.imageView k) Resource.swapChain) ∧
    releasedStrictlyBefore (cleanupShape n m) Resource.swapChain Resource.device ∧
    (m = [Resource.debugMessenger] →
      releasedStrictlyBefore (cleanupShape n m)
        Resource.device Resource.debugMessenger ∧
      releasedStrictlyBefore (cleanupShape n m)
        Resource.debugMessenger Resource.surface) ∧
    releasedStrictlyBefore (cleanupShape n m) Resource.device Resource.surface ∧
    releasedStrictlyBefore (cleanupShape n m) Resource.surface Resource.inst ∧
    releasedStrictlyBefore (cleanupShape n m) Resource.inst Resource.window := by
  rcases hm with rfl | rfl
  · refine ⟨?_, ?_, ?_, ?_, ?_, ?_⟩
    · intro k hk
      exact releasedStrictlyBefore_of_split _
        ((List.range n).map Resource.imageView)
        [Resource.swapChain, Resource.device,
         Resource.surface, Resource.inst, Resource.window] _ _
        (by simp [cleanupShape])
        (List.mem_map_of_mem _ (List.mem_range.mpr hk))
        (by simp) (by simp) (by simp)
    · exact releasedStrictlyBefore_of_split _
        ((List.range n).map Resource.imageView ++ [Resource.swapChain])
        [Resource.device, Resource.surface, Resource.inst, Resource.window] _ _
        (by simp [cleanupShape]) (by simp) (by simp) (by simp) (by simp)
    · intro hq
      cases hq
    · exact releasedStrictlyBefore_of_split _
        ((List.range n).map Resource.imageView ++
          [Resource.swapChain, Resource.device])
        [Resource.surface, Resource.inst, Resource.window] _ _
        (by simp [cleanupShape]) (by simp) (by simp) (by simp) (by simp)
    · exact releasedStrictlyBefore_of_split _
        ((List.range n).map Resource.imageView ++
          [Resource.swapChain, Resource.device, Resource.surface])
        [Resource.inst, Resource.window] _ _
        (by simp [cleanupShape]) (by simp) (by simp) (by simp) (by simp)
    · exact releasedStrictlyBefore_of_split _
        ((List.range n).map Resource.imageView ++
          [Resource.swapChain, Resource.device, Resource.surface, Resource.inst])
        [Resource.window] _ _
        (by simp [cleanupShape]) (by simp) (by simp) (by simp) (by simp)
  · refine ⟨?_, ?_, ?_, ?_, ?_, ?_⟩
    · intro k hk
      exact releasedStrictlyBefore_of_split _
        ((List.range n).map Resource.imageView)
        [Resource.swapChain, Resource.device, Resource.debugMessenger,
         Resource.surface, Resource.inst, Resource.window] _ _
        (by simp [cleanupShape])
        (List.mem_map_of_mem _ (List.mem_range.mpr hk))
        (by simp) (by simp) (by simp)
    · exact releasedStrictlyBefore_of_split _
        ((List.range n).map Resource.imageView ++ [Resource.swapChain])
        [Resource.device, Resource.debugMessenger,
         Resource.surface, Resource.inst, Resource.window] _ _
        (by simp [cleanupShape]) (by simp) (by simp) (by simp) (by simp)
    · intro _
      constructor
      · exact releasedStrictlyBefore_of_split _
          ((List.range n).map Resource.imageView ++
            [Resource.swapChain, Resource.device])
          [Resource.debugMessenger,
           Resource.surface, Resource.inst, Resource.window] _ _
          (by simp [cleanupShape]) (by simp) (by simp) (by simp) (by simp)
      · exact releasedStrictlyBefore_of_split _
          ((List.range n).map Resource.imageView ++
            [Resource.swapChain, Resource.device, Resource.debugMessenger])
          [Resource.surface, Resource.inst, Resource.window] _ _
          (by simp [cleanupShape]) (by simp) (by simp) (by simp) (by simp)
    · exact releasedStrictlyBefore_of_split _
        ((List.range n).map Resource.imageView ++
          [Resource.swapChain, Resource.device, Resource.debugMessenger])
        [Resource.surface, Resource.inst, Resource.window] _ _
        (by simp [cleanupShape]) (by simp) (by simp) (by simp) (by simp)
    · exact releasedStrictlyBefore_of_split _
        ((List.range n).map Resource.imageView ++
          [Resource.swapChain, Resource.device, Resource.debugMessenger,
           Resource.surface])
        [Resource.inst, Resource.window] _ _
        (by simp [cleanupShape]) (by simp) (by simp) (by simp) (by simp)
    · exact releasedStrictlyBefore_of_split _
        ((List.range n).map Resource.imageView ++
          [Resource.swapChain, Resource.device, Resource.debugMessenger,
           Resource.surface, Resource.inst])
        [Resource.window] _ _
        (by simp [cleanupShape]) (by simp) (by simp) (by simp) (by simp)

/-! ## Claim theorems -/

/-- **C4**: `isDeviceSuitable` returns true for an adapter iff its
`QueueFamilyIndicies` for the surface are complete, every required
device-extension name appears among the adapter's enumerated device
extensions, and the adapter's surface format and present-mode lists are both
non-empty. -/
theorem isDeviceSuitable_spec (required : List String) (dev : PhysicalDevice) :
    isDeviceSuitable required dev = true ↔
      ((findQueueFamilies dev.queueFamilies).isComplete = true ∧
       (∀ e ∈ required, e ∈ dev.availableExtensions) ∧
       dev.formats ≠ [] ∧ dev.presentModes ≠ []) :=
  isDeviceSuitable_iff required dev

/-- Witness for C4: a concrete suitable adapter. -/
theorem isDeviceSuitable_spec_witness :
    isDeviceSuitable deviceExtensions
      ⟨[⟨true, true⟩], ["VK_KHR_swapchain"], [⟨50, 0⟩], [0]⟩ = true :=
  (isDeviceSuitable_spec deviceExtensions
      ⟨[⟨true, true⟩], ["VK_KHR_swapchain"], [⟨50, 0⟩], [0]⟩).mpr
    ⟨by decide, by decide, by decide, by decide⟩

/-- **C5**: `checkDeviceExtensionSupport` returns true iff the set of names
in the required list is a subset of the set of names in the available list;
consequently its result depends only on the membership sets, not on order or
duplicates, of either list. -/
theorem checkDeviceExtensionSupport_subset (R S : List String) :
    (checkDeviceExtensionSupport R S = true ↔ ∀ r ∈ R, r ∈ S) ∧
    (∀ R' S' : List String, (∀ x, x ∈ R ↔ x ∈ R') → (∀ x, x ∈ S ↔ x ∈ S') →
      checkDeviceExtensionSupport R S = checkDeviceExtensionSupport R' S') := by
  refine ⟨checkDeviceExtensionSupport_iff R S, ?_⟩
  intro R' S' hR hS
  cases h : checkDeviceExtensionSupport R' S' with
  | true =>
    refine (checkDeviceExtensionSupport_iff R S).mpr ?_
    intro r hr
    exact (hS r).mpr ((checkDeviceExtensionSupport_iff R' S').mp h r ((hR r).mp hr))
  | false =>
    cases h2 : checkDeviceExtensionSupport R S with
    | false => rfl
    | true =>
      exfalso
      have hRS' : checkDeviceExtensionSupport R' S' = true :=
        (checkDeviceExtensionSupport_iff R' S').mpr (fun r hr =>
          (hS r).mp ((checkDeviceExtensionSupport_iff R S).mp h2 r ((hR r).mpr hr)))
      rw [h] at hRS'
      cases hRS'

/-- Witness for C5: a concrete required/available pair, subset holding up to
order and duplicates. -/
theorem checkDeviceExtensionSupport_subset_witness :
    checkDeviceExtensionSupport ["a", "b", "a"] ["c", "b", "a"] = true :=
  (checkDeviceExtensionSupport_subset ["a", "b", "a"] ["c", "b", "a"]).1.mpr (by decide)

/-- **C7 counterexample**: the image-count computation is `uint32_t`
arithmetic, so at `minImageCount = UINT32_MAX` (with `maxImageCount = 0`,
i.e. unbounded) the `+ 1` wraps to `0`, while the claim's
`minImageCount + 1` does not. -/
theorem chosenImageCount_counterexample :
    chosenImageCount UINT32_MAX 0 = 0 ∧
    chosenImageCount UINT32_MAX 0 ≠ UINT32_MAX + 1 := by
  decide

/-- **C7** (amended): the chosen image count is `minImageCount + 1` computed
in `uint32_t` (wrapping at `2 ^ 32`); a zero `maxImageCount` means unbounded
and never clamps, and a nonzero `maxImageCount` caps the result from above.
In particular `min = 2, max = 0` gives `3` and `min = 2, max = 2` gives
`2`. -/
theorem chosenImageCount_spec (minImageCount maxImageCount : Nat) :
    chosenImageCount minImageCount maxImageCount =
      (if maxImageCount = 0 then (minImageCount + 1) % 2 ^ 32
       else min ((minImageCount + 1) % 2 ^ 32) maxImageCount) ∧
    chosenImageCount 2 0 = 3 ∧ chosenImageCount 2 2 = 2 := by
  refine ⟨?_, by decide, by decide⟩
  simp only [chosenImageCount, min_def']
  split_ifs <;> omega

/-- **C8**: distinct resolved graphics/present family indices give concurrent
sharing with exactly those two indices listed; equal indices give exclusive
sharing with an empty index list, and exclusive sharing never carries a
non-empty list. -/
theorem swapChainSharingMode_spec (graphicsFamily presentFamily : Nat) :
    (graphicsFamily ≠ presentFamily →
      swapChainSharingMode graphicsFamily presentFamily =
        (VkSharingMode.concurrent, [graphicsFamily, presentFamily])) ∧
    (graphicsFamily = presentFamily →
      swapChainSharingMode graphicsFamily presentFamily =
        (VkSharingMode.exclusive, [])) ∧
    ((swapChainSharingMode graphicsFamily presentFamily).1 =
        VkSharingMode.exclusive →
      (swapChainSharingMode graphicsFamily presentFamily).2 = []) := by
  unfold swapChainSharingMode
  by_cases h : graphicsFamily = presentFamily <;> simp [h]

/-- Witness for C8: both branches at concrete indices. -/
theorem swapChainSharingMode_spec_witness :
    swapChainSharingMode 0 1 = (VkSharingMode.concurrent, [0, 1]) ∧
    swapChainSharingMode 2 2 = (VkSharingMode.exclusive, []) :=
  ⟨(swapChainSharingMode_spec 0 1).1 (by decide),
   (swapChainSharingMode_spec 2 2).2.1 rfl⟩

/-- **C9**: completeness of `QueueFamilyIndicies` is a precondition of
`createLogicalDevice`: with an incomplete value it raises
(`std::bad_optional_access` from `std::optional::value`) before building any
device create info, so no `vkCreateDevice` call is reached and no device is
created. -/
theorem createLogicalDevice_requires_complete (indices : QueueFamilyIndicies)
    (availableExtensions required : List String)
    (h : indices.isComplete = false) :
    createLogicalDevice indices availableExtensions required =
      Except.error "bad_optional_access" ∧
    ∀ info : DeviceCreateInfo,
      createLogicalDevice indices availableExtensions required ≠
        Except.ok info := by
  rcases indices with ⟨og, op⟩
  rcases og with _ | g <;> rcases op with _ | p <;>
    simp [createLogicalDevice, QueueFamilyIndicies.isComplete] at h ⊢

/-- Witness for C9: a concrete incomplete `QueueFamilyIndicies`. -/
theorem createLogicalDevice_requires_complete_witness :
    createLogicalDevice ⟨none, some 0⟩ [] deviceExtensions =
      Except.error "bad_optional_access" :=
  (createLogicalDevice_requires_complete ⟨none, some 0⟩ [] deviceExtensions
    (by decide)).1

/-- **C3**: in every run of `cleanup` (any validation-layer configuration and
any number of image views), resources are released most-dependent first:
every swap-chain image view strictly before the swap chain, the swap chain
strictly before the logical device, the device strictly before the debug
messenger and the messenger strictly before the surface when the messenger is
destroyed, the device strictly before the surface, the surface strictly
before the instance, and the instance strictly before the window. -/
theorem cleanup_release_order (enableValidationLayers destroyFuncFound : Bool)
    (n : Nat) :
    (∀ k, k < n → releasedStrictlyBefore
      (cleanup enableValidationLayers destroyFuncFound n)
      (Resource.imageView k) Resource.swapChain) ∧
    releasedStrictlyBefore (cleanup enableValidationLayers destroyFuncFound n)
      Resource.swapChain Resource.device ∧
    (enableValidationLayers = true → destroyFuncFound = true →
      releasedStrictlyBefore (cleanup enableValidationLayers destroyFuncFound n)
        Resource.device Resource.debugMessenger ∧
      releasedStrictlyBefore (cleanup enableValidationLayers destroyFuncFound n)
        Resource.debugMessenger Resource.surface) ∧
    releasedStrictlyBefore (cleanup enableValidationLayers destroyFuncFound n)
      Resource.device Resource.surface ∧
    releasedStrictlyBefore (cleanup enableValidationLayers destroyFuncFound n)
      Resource.surface Resource.inst ∧
    releasedStrictlyBefore (cleanup enableValidationLayers destroyFuncFound n)
      Resource.inst Resource.window := by
  cases enableValidationLayers <;> cases destroyFuncFound
  · have hcl : cleanup false false n = cleanupShape n [] := by
      simp [cleanup, cleanupShape]
    rw [hcl]
    have h := cleanupShape_order n [] (Or.inl rfl)
    exact ⟨h.1, h.2.1, fun hq _ => Bool.noConfusion hq, h.2.2.2⟩
  · have hcl : cleanup false true n = cleanupShape n [] := by
      simp [cleanup, cleanupShape]
    rw [hcl]
    have h := cleanupShape_order n [] (Or.inl rfl)
    exact ⟨h.1, h.2.1, fun hq _ => Bool.noConfusion hq, h.2.2.2⟩
  · have hcl : cleanup true false n = cleanupShape n [] := by
      simp [cleanup, cleanupShape]
    rw [hcl]
    have h := cleanupShape_order n [] (Or.inl rfl)
    exact ⟨h.1, h.2.1, fun _ hq => Bool.noConfusion hq, h.2.2.2⟩
  · have hcl : cleanup true true n = cleanupShape n [Resource.debugMessenger] := by
      simp [cleanup, cleanupShape]
    rw [hcl]
    have h := cleanupShape_order n [Resource.debugMessenger] (Or.inr rfl)
    exact ⟨h.1, h.2.1, fun _ _ => h.2.2.1 rfl, h.2.2.2⟩

/-- Witness for C3: a run with validation layers on, the destroy function
found, and one image view. -/
theorem cleanup_release_order_witness :
    releasedStrictlyBefore (cleanup true true 1)
      (Resource.imageView 0) Resource.swapChain ∧
    releasedStrictlyBefore (cleanup true true 1)
      Resource.device Resource.debugMessenger :=
  ⟨(cleanup_release_order true true 1).1 0 (by decide),
   ((cleanup_release_order true true 1).2.2.1 rfl rfl).1⟩

/-- **C2 counterexample**: the code detects the sentinel by the width
component alone (`currentExtent.width != uint32 max`).  With
`currentExtent = (UINT32_MAX, 720)` — not the claim's both-components
sentinel — the claim demands the current extent verbatim, but the code
clamps the framebuffer size instead. -/
theorem chooseSwapExtent_counterexample :
    (SurfaceCapabilitiesKHR.mk 2 0 ⟨UINT32_MAX, 720⟩ ⟨100, 100⟩
        ⟨4000, 4000⟩).currentExtent ≠ ⟨UINT32_MAX, UINT32_MAX⟩ ∧
    chooseSwapExtent ⟨2, 0, ⟨UINT32_MAX, 720⟩, ⟨100, 100⟩, ⟨4000, 4000⟩⟩
        50 4500 = ⟨100, 4000⟩ ∧
    chooseSwapExtent ⟨2, 0, ⟨UINT32_MAX, 720⟩, ⟨100, 100⟩, ⟨4000, 4000⟩⟩
        50 4500 ≠
      (SurfaceCapabilitiesKHR.mk 2 0 ⟨UINT32_MAX, 720⟩ ⟨100, 100⟩
        ⟨4000, 4000⟩).currentExtent := by
  decide

/-- **C2** (amended): `chooseSwapExtent` returns the surface-reported current
extent verbatim unless the current extent's *width* equals the maximum
representable `uint32` value (the sentinel is detected by the width component
alone); only in that case does it clamp the live framebuffer size, each
dimension independently, into `[minImageExtent, maxImageExtent]`. -/
theorem chooseSwapExtent_spec (capabilities : SurfaceCapabilitiesKHR)
    (fbWidth fbHeight : Nat)
    (hw : capabilities.minImageExtent.width ≤ capabilities.maxImageExtent.width)
    (hh : capabilities.minImageExtent.height ≤ capabilities.maxImageExtent.height) :
    (capabilities.currentExtent.width ≠ UINT32_MAX →
      chooseSwapExtent capabilities fbWidth fbHeight = capabilities.currentExtent) ∧
    (capabilities.currentExtent.width = UINT32_MAX →
      chooseSwapExtent capabilities fbWidth fbHeight =
        ⟨max capabilities.minImageExtent.width
           (min fbWidth capabilities.maxImageExtent.width),
         max capabilities.minImageExtent.height
           (min fbHeight capabilities.maxImageExtent.height)⟩) := by
  constructor
  · intro h
    simp [chooseSwapExtent, h]
  · intro h
    simp only [chooseSwapExtent, h, ne_eq, not_true_eq_false, if_false,
      stdClamp_eq_max_min _ _ _ hw, stdClamp_eq_max_min _ _ _ hh]

/-- Witness for C2: the claim's own seed examples, sentinel and
non-sentinel. -/
theorem chooseSwapExtent_spec_witness :
    chooseSwapExtent ⟨2, 0, ⟨UINT32_MAX, UINT32_MAX⟩, ⟨100, 100⟩, ⟨4000, 4000⟩⟩
        50 4500 = ⟨100, 4000⟩ ∧
    chooseSwapExtent ⟨2, 0, ⟨1280, 720⟩, ⟨100, 100⟩, ⟨4000, 4000⟩⟩
        50 4500 = ⟨1280, 720⟩ := by
  constructor
  · exact ((chooseSwapExtent_spec
      ⟨2, 0, ⟨UINT32_MAX, UINT32_MAX⟩, ⟨100, 100⟩, ⟨4000, 4000⟩⟩ 50 4500
      (by decide) (by decide)).2 rfl).trans (by decide)
  · exact (chooseSwapExtent_spec
      ⟨2, 0, ⟨1280, 720⟩, ⟨100, 100⟩, ⟨4000, 4000⟩⟩ 50 4500
      (by decide) (by decide)).1 (by decide)

/-- **C6**: for a non-empty offered format list, `chooseSwapChainFormat`
returns the (BGRA-8, SRGB-nonlinear) pair whenever it occurs anywhere in the
list, and otherwise returns the first element of the list. -/
theorem chooseSwapChainFormat_spec (formats : List SurfaceFormatKHR)
    (hne : formats ≠ []) :
    (preferredFormat ∈ formats →
      chooseSwapChainFormat formats = some preferredFormat) ∧
    (preferredFormat ∉ formats →
      chooseSwapChainFormat formats = some (formats.head hne)) := by
  have key : ∀ x : SurfaceFormatKHR,
      (x.format == VK_FORMAT_B8G8R8A8_SRGB &&
       x.colorSpace == VK_COLOR_SPACE_SRGB_NONLINEAR_KHR) = true →
      x = preferredFormat := by
    rintro ⟨f, c⟩ hx
    simp only [Bool.and_eq_true, beq_iff_eq] at hx
    simp [preferredFormat, hx.1, hx.2]
  constructor
  · intro hmem
    rcases hfind : formats.find? (fun format =>
        format.format == VK_FORMAT_B8G8R8A8_SRGB &&
        format.colorSpace == VK_COLOR_SPACE_SRGB_NONLINEAR_KHR) with _ | x
    · exfalso
      have := List.find?_eq_none.mp hfind preferredFormat hmem
      simp [preferredFormat, VK_FORMAT_B8G8R8A8_SRGB,
        VK_COLOR_SPACE_SRGB_NONLINEAR_KHR] at this
    · have hpx := List.find?_some hfind
      have hx := key x hpx
      simp [chooseSwapChainFormat, hfind, hx]
  · intro hmem
    have hfind : formats.find? (fun format =>
        format.format == VK_FORMAT_B8G8R8A8_SRGB &&
        format.colorSpace == VK_COLOR_SPACE_SRGB_NONLINEAR_KHR) = none := by
      refine List.find?_eq_none.mpr ?_
      intro x hxmem hpx
      exact hmem (key x hpx ▸ hxmem)
    obtain ⟨f, rest, rfl⟩ := List.exists_cons_of_ne_nil hne
    simp [chooseSwapChainFormat, hfind]

/-- Witness for C6: the spec's seed tests `[X, preferred, Y] → preferred` and
`[X, Y] → X`. -/
theorem chooseSwapChainFormat_spec_witness :
    chooseSwapChainFormat [⟨2, 3⟩, preferredFormat, ⟨4, 5⟩] =
      some preferredFormat ∧
    chooseSwapChainFormat [⟨2, 3⟩, ⟨4, 5⟩] = some ⟨2, 3⟩ := by
  constructor
  · exact (chooseSwapChainFormat_spec [⟨2, 3⟩, preferredFormat, ⟨4, 5⟩]
      (by decide)).1 (by decide)
  · exact ((chooseSwapChainFormat_spec [⟨2, 3⟩, ⟨4, 5⟩]
      (by decide)).2 (by decide)).trans (by decide)

/-- **C10**: on the empty offered format list the fallback indexing of
`chooseSwapChainFormat` is out of bounds (surfaced as `none`); on any
non-empty list the fallback is in bounds and the function is total (returns
`some`), and the suitability check guarantees a non-empty format list for
every selected adapter. -/
theorem chooseSwapChainFormat_empty_guard :
    chooseSwapChainFormat [] = none ∧
    (∀ formats : List SurfaceFormatKHR, formats ≠ [] →
      (chooseSwapChainFormat formats).isSome = true) ∧
    (∀ required : List String, ∀ dev : PhysicalDevice,
      isDeviceSuitable required dev = true → dev.formats ≠ []) := by
  refine ⟨rfl, ?_, ?_⟩
  · intro formats hne
    rcases hfind : formats.find? (fun format =>
        format.format == VK_FORMAT_B8G8R8A8_SRGB &&
        format.colorSpace == VK_COLOR_SPACE_SRGB_NONLINEAR_KHR) with _ | x
    · obtain ⟨f, rest, rfl⟩ := List.exists_cons_of_ne_nil hne
      simp [chooseSwapChainFormat, hfind]
    · simp [chooseSwapChainFormat, hfind]
  · intro required dev h
    exact ((isDeviceSuitable_iff required dev).mp h).2.2.1

/-- Witness for C10: totality on a concrete non-empty list and non-emptiness
of the format list of a concrete suitable adapter. -/
theorem chooseSwapChainFormat_empty_guard_witness :
    (chooseSwapChainFormat [⟨6, 7⟩]).isSome = true ∧
    (⟨[⟨true, true⟩], ["VK_KHR_swapchain"], [⟨50, 0⟩],
        [0]⟩ : PhysicalDevice).formats ≠ [] := by
  constructor
  · exact chooseSwapChainFormat_empty_guard.2.1 [⟨6, 7⟩] (by decide)
  · exact chooseSwapChainFormat_empty_guard.2.2 deviceExtensions
      ⟨[⟨true, true⟩], ["VK_KHR_swapchain"], [⟨50, 0⟩], [0]⟩ (by decide)

lemma lastIdxWhere_cons (p : QueueFamilyProps → Bool) (f : QueueFamilyProps)
    (rest : List QueueFamilyProps) :
    lastIdxWhere p (f :: rest) = shiftIdx (p f) (lastIdxWhere p rest) := by
  cases h : lastIdxWhere p rest <;> simp [lastIdxWhere, shiftIdx, h]

lemma updOpt_if_isSome (old : Option Nat) (b : Bool) (i : Nat) :
    (updOpt old (if b then some i else none)).isSome = (old.isSome || b) := by
  cases b <;> cases old <;> simp [updOpt]

lemma updOpt_map_succ (old : Option Nat) (X : Option Nat) (i : Nat) (b : Bool) :
    updOpt (updOpt old (if b then some i else none))
        (X.map (fun j => j + (i + 1))) =
      updOpt old ((shiftIdx b X).map (fun j => j + i)) := by
  cases X <;> cases b <;> cases old <;> simp [updOpt, shiftIdx] <;> omega

lemma updOpt_none_add_zero (X : Option Nat) :
    updOpt none (X.map (fun j => j + 0)) = X := by
  cases X <;> simp [updOpt]

lemma findQueueFamiliesAux_eq (families : List QueueFamilyProps) :
    ∀ (i : Nat) (og op : Option Nat),
    findQueueFamiliesAux families i ⟨og, op⟩ =
      ⟨updOpt og ((lastIdxWhere (fun f => f.graphics)
          (families.take (scanLenAux og.isSome op.isSome families))).map
            (fun j => j + i)),
       updOpt op ((lastIdxWhere (fun f => f.present)
          (families.take (scanLenAux og.isSome op.isSome families))).map
            (fun j => j + i))⟩ := by
  induction families with
  | nil =>
    intro i og op
    simp [findQueueFamiliesAux, scanLenAux, lastIdxWhere, updOpt]
  | cons f rest ih =>
    intro i og op
    have hind : findQueueFamiliesAux (f :: rest) i ⟨og, op⟩ =
        (if ((og.isSome || f.graphics) && (op.isSome || f.present)) = true then
          (⟨updOpt og (if f.graphics then some i else none),
            updOpt op (if f.present then some i else none)⟩ : QueueFamilyIndicies)
        else findQueueFamiliesAux rest (i + 1)
          ⟨updOpt og (if f.graphics then some i else none),
           updOpt op (if f.present then some i else none)⟩) := by
      cases hg : f.graphics <;> cases hp : f.present <;>
        cases og <;> cases op <;>
          simp [findQueueFamiliesAux, QueueFamilyIndicies.isComplete, updOpt,
            hg, hp]
    rw [hind]
    by_cases hc : ((og.isSome || f.graphics) && (op.isSome || f.present)) = true
    · rw [if_pos hc]
      have hscan : scanLenAux og.isSome op.isSome (f :: rest) = 1 := by
        simp [scanLenAux, hc]
      rw [hscan]
      simp only [List.take_succ_cons, List.take_zero]
      rw [lastIdxWhere_cons, lastIdxWhere_cons]
      simp only [lastIdxWhere]
      cases hg : f.graphics <;> cases hp : f.present <;>
        simp [shiftIdx, updOpt]
    · rw [if_neg hc]
      rw [ih (i + 1) (updOpt og (if f.graphics then some i else none))
        (updOpt op (if f.present then some i else none))]
      rw [updOpt_if_isSome og f.graphics i, updOpt_if_isSome op f.present i]
      have hscan : scanLenAux og.isSome op.isSome (f :: rest) =
          1 + scanLenAux (og.isSome || f.graphics) (op.isSome || f.present)
            rest := by
        simp [scanLenAux, hc]
      rw [hscan, Nat.add_comm 1 _, List.take_succ_cons,
        lastIdxWhere_cons, lastIdxWhere_cons]
      rw [QueueFamilyIndicies.mk.injEq]
      exact ⟨updOpt_map_succ og _ i f.graphics,
        updOpt_map_succ op _ i f.present⟩

/-- **C1 counterexample**: with families `[graphics-only, graphics+present]`
the first family advertising graphics has index `0`, but `findQueueFamilies`
returns graphics index `1`: the loop reassigns the graphics index at *every*
graphics-capable family it scans (no first-assignment guard), so the second
family overwrites the first before the completeness check stops the scan. -/
theorem findQueueFamilies_counterexample :
    List.findIdx (fun f => f.graphics)
      ([⟨true, false⟩, ⟨true, true⟩] : List QueueFamilyProps) = 0 ∧
    findQueueFamilies [⟨true, false⟩, ⟨true, true⟩] =
      { graphicsFamily := some 1, presentFamily := some 1 } ∧
    (findQueueFamilies [⟨true, false⟩, ⟨true, true⟩]).graphicsFamily ≠
      some 0 := by
  decide

/-- **C1** (amended): `findQueueFamilies` scans the queue family list in
index order, at each family reassigning the graphics index whenever the
family advertises graphics and, independently, the present index whenever the
family can present (later assignments overwrite earlier ones), and stops
right after the first family at which both indices are assigned.  Hence the
returned indices are exactly: restrict the list to the scanned prefix (up to
and including the first index at which both capabilities have been seen, or
the whole list if that never happens), and take for each capability the index
of the *last* family in that prefix advertising it. -/
theorem findQueueFamilies_characterization (families : List QueueFamilyProps) :
    findQueueFamilies families = specQueueFamilies families := by
  rw [findQueueFamilies, findQueueFamiliesAux_eq families 0 none none,
    specQueueFamilies]
  simp only [Option.isSome_none, scannedLen]
  rw [updOpt_none_add_zero, updOpt_none_add_zero]

/-- Witness for C1: the characterization evaluated on the counterexample's
family list. -/
theorem findQueueFamilies_characterization_witness :
    findQueueFamilies [⟨true, false⟩, ⟨true, true⟩] =
      specQueueFamilies [⟨true, false⟩, ⟨true, true⟩] ∧
    specQueueFamilies [⟨true, false⟩, ⟨true, true⟩] =
      { graphicsFamily := some 1, presentFamily := some 1 } :=
  ⟨findQueueFamilies_characterization [⟨true, false⟩, ⟨true, true⟩], by decide⟩

end VulkanRT
